import Mathlib

/-!
Verification of the document-assembly service in backend/main.py.

The development shallow-embeds the three core functions of the source
file — parse_excel_config, append_section and upload_and_process — over
explicit data:

* spreadsheet cells are `Option String` (a `none` or `""` cell is falsy,
  matching Python truthiness of the raw cell value);
* the Word document is a list of content blocks (paragraphs, headings,
  pictures, page breaks), and python-docx mutation becomes appending;
* the filesystem seen by os.listdir is a parameter
  `listing : Option (List String)` (`none` models FileNotFoundError);
* a possible failure of doc.add_picture on a given path is a parameter
  `picErr : String → Option String` (`some e` models an exception with
  message `e`).

String primitives (strip, split with maxsplit 1, removesuffix, lower,
endswith, sorted) are re-implemented structurally over `List Char` so
that concrete instances evaluate by `decide`/`rfl`; whitespace is the
ASCII whitespace recognised by `Char.isWhitespace`.
-/

/-- Characters of a string compared by code point, strictly, as Python
compares strings. -/
def charsLt : List Char → List Char → Bool
  | [], [] => false
  | [], _ :: _ => true
  | _ :: _, [] => false
  | a :: as, b :: bs =>
    if a.toNat < b.toNat then true
    else if b.toNat < a.toNat then false
    else charsLt as bs

/-- Strict code-point order on strings. -/
def strLt (a b : String) : Bool := charsLt a.data b.data

/-- Stable insertion of one string into a sorted list: the new element
goes after any element it is not strictly below. -/
def pyOrderedIns (a : String) : List String → List String
  | [] => [a]
  | b :: l => if strLt a b then a :: b :: l else b :: pyOrderedIns a l

/-- Model of Python sorted on a list of strings: stable ascending sort. -/
def pySorted : List String → List String
  | [] => []
  | a :: l => pyOrderedIns a (pySorted l)

/-- Model of Python str.strip: drop whitespace from both ends. -/
def pyStrip (s : String) : String :=
  ⟨((s.data.dropWhile Char.isWhitespace).reverse.dropWhile Char.isWhitespace).reverse⟩

/-- Model of Python str.endswith for a single suffix. -/
def pyEndswith (s suf : String) : Bool := suf.data.isSuffixOf s.data

/-- Model of Python str.removesuffix: drop the suffix when present,
otherwise return the string unchanged. -/
def removesuffix (s suf : String) : String :=
  if pyEndswith s suf then ⟨s.data.take (s.data.length - suf.data.length)⟩ else s

/-- Model of Python str.lower. -/
def pyLower (s : String) : String := ⟨s.data.map Char.toLower⟩

/-- Helper for splitFirst: walk the character list looking for the first
occurrence of the pattern `d`; return the characters before it and the
characters after it. -/
def splitFirstAux (d : List Char) : List Char → Option (List Char × List Char)
  | [] => none
  | c :: rest =>
    if d.isPrefixOf (c :: rest) then some ([], (c :: rest).drop d.length)
    else
      match splitFirstAux d rest with
      | some (pre, post) => some (c :: pre, post)
      | none => none

/-- Model of Python s.split(d, 1) for a non-empty in-string delimiter:
`some (before, after)` when `d` occurs in `s` (split at the first
occurrence), `none` when it does not. -/
def splitFirst (s d : String) : Option (String × String) :=
  match splitFirstAux d.data s.data with
  | some (pre, post) => some (⟨pre⟩, ⟨post⟩)
  | none => none

/-- Fixed chapter number from backend/main.py. -/
def MAIN_CHAPTER_NUMBER : String := "1"

/-- One spreadsheet data row as iter_rows(min_row=2, max_col=2) yields
it: column A and column B raw cell values. -/
abbrev Row := Option String × Option String

/-- Python truthiness of a raw cell value: an absent cell or the empty
string is falsy. -/
def truthy : Option String → Bool
  | none => false
  | some s => s != ""

/-- Text of a cell (`str(col_a)` in the source, applied only to truthy
cells). -/
def cellText : Option String → String
  | none => ""
  | some s => s

/-- Title-cell parsing from parse_excel_config (backend/main.py lines
70-80): strip the cell, look for the literal marker, split at its first
occurrence; the part before loses one trailing ASCII comma, then one
trailing full-width comma, with whitespace stripped around; the part
after, stripped, is the folder id. Returns (title, folder_id). -/
def parse_title_cell (col_a : String) : String × String :=
  let title_raw := pyStrip col_a
  match splitFirst title_raw "功能代碼:" with
  | some (before, after) =>
    (pyStrip (removesuffix (removesuffix (pyStrip before) ",") "，"), pyStrip after)
  | none => (title_raw, "")

/-- Column-B handling from backend/main.py line 71: a falsy cell becomes
the fixed sentinel, otherwise the text is stripped. -/
def query_of : Option String → String
  | none => "（未提供）"
  | some s => if s = "" then "（未提供）" else pyStrip s

/-- One parsed configuration row (the dict appended at backend/main.py
lines 82-87). -/
structure SectionInfo where
  folder : String
  title : String
  query_condition : String
  base_number : String
deriving Repr, DecidableEq

/-- The descriptor built for row number `idx` (1-based over all data
rows) with truthy column A text `a` and column B value `b`. -/
def mkSection (idx : Nat) (a : String) (b : Option String) : SectionInfo :=
  let p := parse_title_cell a
  { folder := p.2
    title := p.1
    query_condition := query_of b
    base_number := MAIN_CHAPTER_NUMBER ++ "." ++ toString idx }

/-- Loop body of parse_excel_config: `idx` is the enumerate counter,
which advances on every row, emitted or skipped. -/
def parse_go (idx : Nat) : List Row → List SectionInfo
  | [] => []
  | (col_a, col_b) :: rest =>
    if truthy col_a then
      mkSection idx (cellText col_a) col_b :: parse_go (idx + 1) rest
    else
      parse_go (idx + 1) rest

/-- parse_excel_config (backend/main.py lines 63-88) over the list of
data rows (the sheet's rows from row 2 on). -/
def parse_excel_config (rows : List Row) : List SectionInfo :=
  parse_go 1 rows

/-- Content fields of a descriptor, without the row counter. -/
def contentOf (s : SectionInfo) : String × String × String :=
  (s.title, s.folder, s.query_condition)

/-- Content fields a truthy row contributes, computed directly from the
row. -/
def rowContent : Row → String × String × String
  | (some a, b) => ((parse_title_cell a).1, (parse_title_cell a).2, query_of b)
  | (none, _) => ("", "", "")

/-- Row numbers (1-based, counting every data row) of the rows that emit
a descriptor, starting the counter at `idx`. -/
def emittedIndices (idx : Nat) : List Row → List Nat
  | [] => []
  | (col_a, _) :: rest =>
    if truthy col_a then idx :: emittedIndices (idx + 1) rest
    else emittedIndices (idx + 1) rest

/-- Title of a marker-bearing cell as claim C3 words it: the text before
the first marker occurrence, whitespace-stripped, with a single trailing
comma (ASCII or full-width) removed, then stripped again. -/
def titleClaimed (cell : String) : String :=
  let t := pyStrip cell
  match splitFirst t "功能代碼:" with
  | some (before, _) =>
    let s := pyStrip before
    let s := if pyEndswith s "," || pyEndswith s "，" then ⟨s.data.take (s.data.length - 1)⟩ else s
    pyStrip s
  | none => t

/-- Title as the amended claim words it: strip, remove a trailing ASCII
comma if present, then a trailing full-width comma if present, then
strip again. -/
def titleAmended (cell : String) : String :=
  let t := pyStrip cell
  match splitFirst t "功能代碼:" with
  | some (before, _) => pyStrip (removesuffix (removesuffix (pyStrip before) ",") "，")
  | none => t

/-- Folder id as the claim words it: the whitespace-trimmed text after
the first marker occurrence, empty when the marker is absent. -/
def folderAmended (cell : String) : String :=
  let t := pyStrip cell
  match splitFirst t "功能代碼:" with
  | some (_, after) => pyStrip after
  | none => ""

theorem parse_go_map_content (idx : Nat) (rows : List Row) :
    (parse_go idx rows).map contentOf
      = (rows.filter (fun r => truthy r.1)).map rowContent := by
  induction rows generalizing idx with
  | nil => rfl
  | cons r rest ih =>
    obtain ⟨a, b⟩ := r
    cases a with
    | none => simpa [parse_go, truthy] using ih (idx + 1)
    | some s =>
      by_cases h : s = ""
      · simp [parse_go, truthy, h, ih (idx + 1)]
      · simp [parse_go, truthy, h, ih (idx + 1), contentOf, rowContent, mkSection, cellText]

theorem parse_go_map_base (idx : Nat) (rows : List Row) :
    (parse_go idx rows).map SectionInfo.base_number
      = (emittedIndices idx rows).map (fun i => MAIN_CHAPTER_NUMBER ++ "." ++ toString i) := by
  induction rows generalizing idx with
  | nil => rfl
  | cons r rest ih =>
    obtain ⟨a, b⟩ := r
    cases htr : truthy a <;>
      simp [parse_go, emittedIndices, htr, ih (idx + 1), mkSection]

theorem emittedIndices_lower (idx : Nat) (rows : List Row) :
    ∀ i ∈ emittedIndices idx rows, idx ≤ i := by
  induction rows generalizing idx with
  | nil => intro i hi; simp [emittedIndices] at hi
  | cons r rest ih =>
    intro i hi
    obtain ⟨a, b⟩ := r
    cases htr : truthy a <;> simp only [emittedIndices, htr] at hi
    · simp only [Bool.false_eq_true, if_false] at hi
      exact Nat.le_of_succ_le (ih (idx + 1) i hi)
    · simp only [if_true] at hi
      rcases List.mem_cons.mp hi with rfl | hi
      · exact Nat.le_refl _
      · exact Nat.le_of_succ_le (ih (idx + 1) i hi)

theorem emittedIndices_pairwise (idx : Nat) (rows : List Row) :
    (emittedIndices idx rows).Pairwise (· < ·) := by
  induction rows generalizing idx with
  | nil => simp [emittedIndices]
  | cons r rest ih =>
    obtain ⟨a, b⟩ := r
    cases htr : truthy a <;> simp only [emittedIndices, htr]
    · simpa using ih (idx + 1)
    · simp only [if_true]
      refine List.Pairwise.cons ?_ (ih (idx + 1))
      intro j hj
      exact Nat.lt_of_succ_le (emittedIndices_lower (idx + 1) rest j hj)

/-- C2: parse_excel_config produces exactly one descriptor per row with
a truthy column A, in input row order, with the descriptor's content
fields computed from that row, and no descriptor for rows whose column A
is empty or absent. -/
theorem parse_emits_one_descriptor_per_nonempty_row (rows : List Row) :
    (parse_excel_config rows).map contentOf
      = (rows.filter (fun r => truthy r.1)).map rowContent
    ∧ (parse_excel_config rows).length
      = (rows.filter (fun r => truthy r.1)).length := by
  refine ⟨parse_go_map_content 1 rows, ?_⟩
  have h := congrArg List.length (parse_go_map_content 1 rows)
  simpa using h

/-- C4 counterexample: with an empty row before a titled row, the single
emitted descriptor carries base_number 1.2, not the 1.1 predicted by the
claim's output-position numbering, so the emitted suffixes are not a
gapless 1..n. -/
theorem base_number_counterexample :
    parse_excel_config [(none, none), (some "A", none)]
      = [{ folder := "", title := "A", query_condition := "（未提供）", base_number := "1.2" }]
    ∧ ("1.2" : String) ≠ "1.1" :=
  ⟨by decide, by decide⟩

/-- C4 (amended): the numeric suffix of base_number is the row's 1-based
position among all data rows — the counter advances on skipped rows too —
so the suffixes of the emitted descriptors are strictly increasing but
not necessarily gapless. -/
theorem base_number_counts_all_rows (rows : List Row) :
    (parse_excel_config rows).map SectionInfo.base_number
      = (emittedIndices 1 rows).map (fun i => MAIN_CHAPTER_NUMBER ++ "." ++ toString i)
    ∧ (emittedIndices 1 rows).Pairwise (· < ·) :=
  ⟨parse_go_map_base 1 rows, emittedIndices_pairwise 1 rows⟩

/-- C3 counterexample: on the cell Foo，,功能代碼:BAR the claim's
single-comma stripping leaves the title Foo， while parse_excel_config
produces Foo (it strips the ASCII comma and then the full-width one). -/
theorem title_comma_strip_counterexample :
    (parse_excel_config [(some "Foo，,功能代碼:BAR", none)]).map SectionInfo.title = ["Foo"]
    ∧ titleClaimed "Foo，,功能代碼:BAR" = "Foo，"
    ∧ ("Foo" : String) ≠ "Foo，" :=
  ⟨by decide, by decide, by decide⟩

/-- C3 (amended): for a truthy title cell containing the marker, the
title is the text before the first marker occurrence, stripped, with a
trailing ASCII comma removed if present and then a trailing full-width
comma removed if present, stripped again; the folder id is the stripped
text after the marker; without the marker the title is the stripped cell
verbatim and the folder id is empty. -/
theorem title_folder_parsing_amended (a : String) (b : Option String) (h : a ≠ "") :
    (parse_excel_config [(some a, b)]).map SectionInfo.title = [titleAmended a]
    ∧ (parse_excel_config [(some a, b)]).map SectionInfo.folder = [folderAmended a] := by
  have htr : truthy (some a) = true := by simp [truthy, h]
  constructor <;>
    · simp only [parse_excel_config, parse_go, htr, if_true, cellText, List.map_cons,
        List.map_nil, mkSection, titleAmended, folderAmended, parse_title_cell]
      rcases hsp : splitFirst (pyStrip a) "功能代碼:" with _ | ⟨x, y⟩ <;> simp [hsp]

theorem title_folder_parsing_amended_witness :
    (parse_excel_config [(some "Foo功能代碼:BAR", none)]).map SectionInfo.title
        = [titleAmended "Foo功能代碼:BAR"]
    ∧ titleAmended "Foo功能代碼:BAR" = "Foo"
    ∧ (parse_excel_config [(some "Foo功能代碼:BAR", none)]).map SectionInfo.folder
        = [folderAmended "Foo功能代碼:BAR"]
    ∧ folderAmended "Foo功能代碼:BAR" = "BAR" :=
  ⟨(title_folder_parsing_amended "Foo功能代碼:BAR" none (by decide)).1, by decide,
   (title_folder_parsing_amended "Foo功能代碼:BAR" none (by decide)).2, by decide⟩

/-- C7: for a row with a truthy title cell, query_condition is column
B's text stripped of surrounding whitespace, and the fixed sentinel when
column B is empty or absent. -/
theorem query_condition_trim_or_sentinel (a s : String) (ha : a ≠ "") (hs : s ≠ "") :
    (parse_excel_config [(some a, some s)]).map SectionInfo.query_condition = [pyStrip s]
    ∧ ∀ b : Option String, b = none ∨ b = some "" →
        (parse_excel_config [(some a, b)]).map SectionInfo.query_condition = ["（未提供）"] := by
  have htr : truthy (some a) = true := by simp [truthy, ha]
  constructor
  · simp [parse_excel_config, parse_go, htr, mkSection, query_of, hs]
  · rintro b (rfl | rfl) <;> simp [parse_excel_config, parse_go, htr, mkSection, query_of]

theorem query_condition_trim_or_sentinel_witness :
    (parse_excel_config [(some "T", some " x ")]).map SectionInfo.query_condition = [pyStrip " x "]
    ∧ (parse_excel_config [(some "T", none)]).map SectionInfo.query_condition = ["（未提供）"] :=
  ⟨(query_condition_trim_or_sentinel "T" " x " (by decide) (by decide)).1,
   (query_condition_trim_or_sentinel "T" " x " (by decide) (by decide)).2 none (Or.inl rfl)⟩

/-- C10: a column-B cell holding only whitespace is truthy, so the
sentinel is not substituted and query_condition becomes the empty
string after stripping. -/
theorem whitespace_query_yields_empty_string :
    (parse_excel_config [(some "T", some " ")]).map SectionInfo.query_condition = [""]
    ∧ ("" : String) ≠ "（未提供）" :=
  ⟨by decide, by decide⟩

/-- Paragraph alignment as set by the source (only CENTER is ever
assigned; an unset alignment stays none). -/
inductive Align where
  | center
deriving Repr, DecidableEq

/-- Font pair applied by set_font_for_run: a Latin face and an East Asian
face. -/
structure Font where
  latin : String
  eastAsia : String
deriving Repr, DecidableEq

/-- The font set_font_for_run applies (backend/main.py lines 48-50). -/
def standardFont : Font := { latin := "Times New Roman", eastAsia := "標楷體" }

/-- One content block of the Word document, in document order. -/
inductive Block where
  | paragraph (text : String) (font : Option Font) (align : Option Align)
  | heading (text : String) (level : Nat) (font : Option Font)
  | picture (path : String) (widthCm : ℚ) (align : Option Align)
  | pageBreak
deriving Repr, DecidableEq

/-- add_paragraph_with_font (backend/main.py lines 52-55): append a
paragraph whose runs carry the standard font. -/
def add_paragraph_with_font (doc : List Block) (text : String) : List Block :=
  doc ++ [Block.paragraph text (some standardFont) none]

/-- add_heading_with_font (backend/main.py lines 57-60). -/
def add_heading_with_font (doc : List Block) (text : String) (level : Nat) : List Block :=
  doc ++ [Block.heading text level (some standardFont)]

/-- doc.add_page_break(). -/
def add_page_break (doc : List Block) : List Block :=
  doc ++ [Block.pageBreak]

/-- Uniform picture width in centimetres (backend/main.py line 106). -/
def uniform_width_cm : ℚ := 1798 / 100

/-- Extension filter from backend/main.py line 100. -/
def validImageName (f : String) : Bool :=
  pyEndswith (pyLower f) ".png" || pyEndswith (pyLower f) ".jpg" || pyEndswith (pyLower f) ".jpeg"

/-- Image resolution from backend/main.py lines 98-101: keep files with
an image extension, join each with the folder path, sort ascending. -/
def resolveImages (image_folder : String) (listing : List String) : List String :=
  pySorted ((listing.filter validImageName).map (fun f => image_folder ++ "/" ++ f))

/-- Image resolution including the FileNotFoundError branch: a missing
folder yields the empty ImageSet (backend/main.py lines 102-104). -/
def resolveImagesOpt (image_folder : String) : Option (List String) → List String
  | none => []
  | some l => resolveImages image_folder l

/-- Warning text for a missing image folder (backend/main.py line 103). -/
def folderWarnMsg (name : String) : String :=
  "警告：找不到與 " ++ name ++ " 對應的圖片資料夾。"

/-- Warning text when add_picture raises for slot idx (backend/main.py
line 117). -/
def slotErrorMsg (idx : Nat) (e : String) : String :=
  "（警告：處理第 " ++ toString (idx + 1) ++ " 張圖片時發生錯誤: " ++ e ++ "）"

/-- Warning text for an absent slot idx (backend/main.py line 120). -/
def slotMissingMsg (idx : Nat) : String :=
  "（警告：此處缺少第 " ++ toString (idx + 1) ++ " 張圖片）"

/-- The single block appended by one call of the nested helper
add_picture_with_uniform_width (backend/main.py lines 108-121): the
centred picture when the slot exists and insertion succeeds, a centred
error warning when insertion raises, a centred missing-slot warning when
the index is out of bounds. -/
def slotBlock (images : List String) (picErr : String → Option String) (idx : Nat) : Block :=
  if h : idx < images.length then
    match picErr (images.get ⟨idx, h⟩) with
    | none => Block.picture (images.get ⟨idx, h⟩) uniform_width_cm (some Align.center)
    | some e => Block.paragraph (slotErrorMsg idx e) (some standardFont) (some Align.center)
  else
    Block.paragraph (slotMissingMsg idx) (some standardFont) (some Align.center)

/-- add_picture_with_uniform_width as a document transformer: every call
appends exactly one block. -/
def add_picture_with_uniform_width (doc : List Block) (images : List String)
    (picErr : String → Option String) (idx : Nat) : List Block :=
  doc ++ [slotBlock images picErr idx]

/-- append_section (backend/main.py lines 91-177), with the os.listdir
outcome and the add_picture failure oracle made explicit. The block
sequence follows the source line by line. -/
def append_section (doc : List Block) (s : SectionInfo) (image_folder : String)
    (listing : Option (List String)) (picErr : String → Option String) : List Block :=
  let doc := match listing with
    | none => add_paragraph_with_font doc (folderWarnMsg s.folder)
    | some _ => doc
  let images := resolveImagesOpt image_folder listing
  let doc := add_page_break doc
  let doc := add_heading_with_font doc (s.title ++ "，功能代碼:" ++ s.folder) 2
  let doc := add_paragraph_with_font doc
    ("在左側的功能選單中，點選「開關帳及TMP資料查詢放行」，接著點選「IFRS15查詢及放行」，最後再點選「"
      ++ s.title ++ "」，即可開啟視窗。")
  let doc := add_picture_with_uniform_width doc images picErr 0
  let doc := add_heading_with_font doc "查詢功能" 3
  let doc := add_heading_with_font doc "查詢所有資料" 4
  let doc := add_paragraph_with_font doc "不輸入查詢條件，直接點擊查詢按鈕即可查詢所有資料。"
  let doc := add_picture_with_uniform_width doc images picErr 1
  let doc := add_heading_with_font doc "查詢特定資料" 4
  let doc := add_paragraph_with_font doc ("查詢條件為：" ++ s.query_condition)
  let doc := add_paragraph_with_font doc "先輸入查詢條件，再點擊查詢按鈕即可查詢特定資料。"
  let doc := add_picture_with_uniform_width doc images picErr 2
  let doc := add_page_break doc
  let doc := add_heading_with_font doc "查詢結果" 4
  let doc := add_picture_with_uniform_width doc images picErr 3
  let doc := add_heading_with_font doc "核可功能" 3
  let doc := add_paragraph_with_font doc "若要執行核可功能，需先點擊查詢，確認有資料且資料無誤後再點擊核可按鈕。"
  let doc := add_heading_with_font doc "已查詢且有資料，點擊核可按鈕" 4
  let doc := add_picture_with_uniform_width doc images picErr 4
  let doc := add_page_break doc
  let doc := add_paragraph_with_font doc "跳出確認訊息。"
  let doc := add_picture_with_uniform_width doc images picErr 5
  let doc := add_paragraph_with_font doc "點擊確認，完成核可後顯示核可者、核可時間"
  let doc := add_picture_with_uniform_width doc images picErr 6
  let doc := add_page_break doc
  let doc := add_heading_with_font doc "未查詢或無資料，點擊核可按鈕" 4
  let doc := add_paragraph_with_font doc "若未查詢或無資料就直接點擊核可按鈕，將會跳出警告。"
  let doc := add_picture_with_uniform_width doc images picErr 7
  let doc := add_heading_with_font doc "退回" 3
  let doc := add_paragraph_with_font doc "若已完成核可要執行退回功能，可直接點擊退回按鈕。"
  let doc := add_picture_with_uniform_width doc images picErr 8
  let doc := add_page_break doc
  let doc := add_paragraph_with_font doc "跳出確認訊息。"
  let doc := add_picture_with_uniform_width doc images picErr 9
  let doc := add_paragraph_with_font doc "點擊確認，退回後不再顯示核可者、核可時間"
  let doc := add_picture_with_uniform_width doc images picErr 10
  doc

/-- The content one append_section call contributes, independent of the
pre-existing document. -/
def sectionDelta (s : SectionInfo) (image_folder : String)
    (listing : Option (List String)) (picErr : String → Option String) : List Block :=
  append_section [] s image_folder listing picErr

/-- A block is centred exactly when the source assigned CENTER to it. -/
def isCentered : Block → Bool
  | Block.paragraph _ _ (some Align.center) => true
  | Block.picture _ _ (some Align.center) => true
  | _ => false

theorem isCentered_slotBlock (images : List String) (e : String → Option String) (i : Nat) :
    isCentered (slotBlock images e i) = true := by
  unfold slotBlock
  split
  · split <;> rfl
  · rfl

theorem append_section_eq_delta (doc : List Block) (s : SectionInfo) (f : String)
    (l : Option (List String)) (e : String → Option String) :
    append_section doc s f l e = doc ++ sectionDelta s f l e := by
  cases l <;>
    simp [append_section, sectionDelta, add_paragraph_with_font, add_heading_with_font,
      add_page_break, add_picture_with_uniform_width, List.append_assoc]


theorem isCentered_paragraph_plain (t : String) (fo : Option Font) :
    isCentered (Block.paragraph t fo none) = false := rfl

theorem isCentered_heading (t : String) (lv : Nat) (fo : Option Font) :
    isCentered (Block.heading t lv fo) = false := rfl

theorem isCentered_pageBreak : isCentered Block.pageBreak = false := rfl

theorem sectionDelta_filter_centered (s : SectionInfo) (f : String)
    (l : Option (List String)) (e : String → Option String) :
    (sectionDelta s f l e).filter isCentered
      = (List.range 11).map (slotBlock (resolveImagesOpt f l) e) := by
  cases l <;>
    simp [sectionDelta, append_section, add_paragraph_with_font, add_heading_with_font,
      add_page_break, add_picture_with_uniform_width, resolveImagesOpt, List.filter_cons,
      isCentered_paragraph_plain, isCentered_heading, isCentered_pageBreak,
      isCentered_slotBlock, List.range_succ]

/-- C1: one append_section call contributes exactly the 11 slot blocks
for indices 0 through 10, in that order (they are precisely the centred
blocks of the contribution); an in-bounds slot whose insertion succeeds
is the i-th image of the resolved ImageSet at the uniform width,
centred, and an out-of-bounds slot is a centred warning paragraph naming
slot i+1. -/
theorem section_appends_exactly_eleven_slots (s : SectionInfo) (f : String)
    (l : Option (List String)) (e : String → Option String) :
    (sectionDelta s f l e).filter isCentered
        = (List.range 11).map (slotBlock (resolveImagesOpt f l) e)
    ∧ ((sectionDelta s f l e).filter isCentered).length = 11
    ∧ (∀ i, i < 11 → (resolveImagesOpt f l).length ≤ i →
        slotBlock (resolveImagesOpt f l) e i
          = Block.paragraph (slotMissingMsg i) (some standardFont) (some Align.center))
    ∧ (∀ i (h : i < (resolveImagesOpt f l).length),
        e ((resolveImagesOpt f l).get ⟨i, h⟩) = none →
        slotBlock (resolveImagesOpt f l) e i
          = Block.picture ((resolveImagesOpt f l).get ⟨i, h⟩) uniform_width_cm
              (some Align.center)) := by
  refine ⟨sectionDelta_filter_centered s f l e, ?_, ?_, ?_⟩
  · rw [sectionDelta_filter_centered s f l e]
    simp
  · intro i _ h2
    unfold slotBlock
    rw [dif_neg (Nat.not_lt.mpr h2)]
  · intro i h he
    unfold slotBlock
    rw [dif_pos h, he]

theorem section_appends_exactly_eleven_slots_witness :
    slotBlock (resolveImagesOpt "r" (some ["b.png", "a.png"])) (fun _ => none) 5
        = Block.paragraph (slotMissingMsg 5) (some standardFont) (some Align.center)
    ∧ slotBlock (resolveImagesOpt "r" (some ["b.png", "a.png"])) (fun _ => none) 0
        = Block.picture ((resolveImagesOpt "r" (some ["b.png", "a.png"])).get ⟨0, by decide⟩)
            uniform_width_cm (some Align.center) :=
  ⟨(section_appends_exactly_eleven_slots ⟨"F", "T", "Q", "1.1"⟩ "r" (some ["b.png", "a.png"])
      (fun _ => none)).2.2.1 5 (by decide) (by decide),
   (section_appends_exactly_eleven_slots ⟨"F", "T", "Q", "1.1"⟩ "r" (some ["b.png", "a.png"])
      (fun _ => none)).2.2.2 0 (by decide) rfl⟩

/-- C8: append_section only appends — the document after a call is the
old document followed by a delta that does not depend on the old
document, so two identical calls append the same delta twice and the
final length is the original length plus twice the delta's length. -/
theorem append_section_strictly_additive (doc : List Block) (s : SectionInfo) (f : String)
    (l : Option (List String)) (e : String → Option String) :
    append_section doc s f l e = doc ++ sectionDelta s f l e
    ∧ append_section (append_section doc s f l e) s f l e
        = doc ++ (sectionDelta s f l e ++ sectionDelta s f l e)
    ∧ (append_section (append_section doc s f l e) s f l e).length
        = doc.length + 2 * (sectionDelta s f l e).length := by
  refine ⟨append_section_eq_delta doc s f l e, ?_, ?_⟩
  · rw [append_section_eq_delta, append_section_eq_delta, List.append_assoc]
  · rw [append_section_eq_delta, append_section_eq_delta, List.append_assoc]
    simp [List.length_append]
    ring

/-- C5: a missing image folder only prepends the in-document warning
naming the folder id and the section is then assembled exactly as for an
existing empty folder; a failing image insertion for an in-bounds slot
leaves a centred warning naming the slot and the error inside the
contribution; and the contribution's block count is fixed (36, plus 1
for the folder warning) whatever the listing and whatever insertions
fail, so no recoverable condition aborts the section. -/
theorem append_section_degrades_gracefully (s : SectionInfo) (f : String)
    (l : Option (List String)) (e : String → Option String) :
    sectionDelta s f none e
        = Block.paragraph (folderWarnMsg s.folder) (some standardFont) none
            :: sectionDelta s f (some []) e
    ∧ (∀ i (h : i < (resolveImagesOpt f l).length) err,
        e ((resolveImagesOpt f l).get ⟨i, h⟩) = some err → i < 11 →
        Block.paragraph (slotErrorMsg i err) (some standardFont) (some Align.center)
          ∈ sectionDelta s f l e)
    ∧ (sectionDelta s f l e).length = (if l = none then 1 else 0) + 36 := by
  refine ⟨?_, ?_, ?_⟩
  · simp [sectionDelta, append_section, add_paragraph_with_font, add_heading_with_font,
      add_page_break, add_picture_with_uniform_width, resolveImagesOpt, resolveImages,
      pySorted]
  · intro i h err he h11
    have hb : slotBlock (resolveImagesOpt f l) e i
        = Block.paragraph (slotErrorMsg i err) (some standardFont) (some Align.center) := by
      unfold slotBlock
      rw [dif_pos h, he]
    have hmem : slotBlock (resolveImagesOpt f l) e i
        ∈ (List.range 11).map (slotBlock (resolveImagesOpt f l) e) :=
      List.mem_map_of_mem _ (List.mem_range.mpr h11)
    rw [← sectionDelta_filter_centered s f l e] at hmem
    have hmem2 := List.mem_of_mem_filter hmem
    rwa [hb] at hmem2
  · cases l <;>
      simp [sectionDelta, append_section, add_paragraph_with_font, add_heading_with_font,
        add_page_break, add_picture_with_uniform_width, resolveImagesOpt]

theorem append_section_degrades_gracefully_witness :
    Block.paragraph (slotErrorMsg 0 "boom") (some standardFont) (some Align.center)
      ∈ sectionDelta ⟨"F", "T", "Q", "1.1"⟩ "r" (some ["a.png"]) (fun _ => some "boom") :=
  (append_section_degrades_gracefully ⟨"F", "T", "Q", "1.1"⟩ "r" (some ["a.png"])
      (fun _ => some "boom")).2.1 0 (by decide) "boom" rfl (by decide)

/-- C9: when the folder listing fails, the folder-missing warning is the
first block of the contribution, before the section's page break and
level-2 heading, so it visually trails the preceding section. -/
theorem folder_warning_precedes_section_heading (s : SectionInfo) (f : String)
    (e : String → Option String) :
    (sectionDelta s f none e)[0]?
        = some (Block.paragraph (folderWarnMsg s.folder) (some standardFont) none)
    ∧ (sectionDelta s f none e)[1]? = some Block.pageBreak
    ∧ (sectionDelta s f none e)[2]?
        = some (Block.heading (s.title ++ "，功能代碼:" ++ s.folder) 2 (some standardFont)) := by
  refine ⟨?_, ?_, ?_⟩ <;>
    simp [sectionDelta, append_section, add_paragraph_with_font, add_heading_with_font,
      add_page_break, add_picture_with_uniform_width, resolveImagesOpt]

/-- upload_and_process (backend/main.py lines 180-215), abstracted over
the already-read spreadsheet rows, the unzipped image root, the
filesystem listings and the picture failure oracle: parse the
configuration; with zero descriptors answer the HTTP error status 400
and produce no document; otherwise append one section per descriptor,
in order, to the uploaded main document. -/
def upload_and_process (mainDoc : List Block) (rows : List Row) (img_root : String)
    (fs : String → Option (List String)) (picErr : String → Option String) :
    Except Nat (List Block) :=
  let sections := parse_excel_config rows
  if sections = [] then Except.error 400
  else
    Except.ok (sections.foldl
      (fun d s => append_section d s (img_root ++ "/" ++ s.folder)
        (fs (img_root ++ "/" ++ s.folder)) picErr)
      mainDoc)

/-- C6: the handler answers the client-facing 400 error exactly when the
spreadsheet yields zero descriptors — and then produces no output
document — and 400 is the only error it ever raises about configuration
content: any non-empty parse result is processed. -/
theorem empty_parse_rejected_with_400 (mainDoc : List Block) (rows : List Row)
    (img_root : String) (fs : String → Option (List String))
    (picErr : String → Option String) :
    (upload_and_process mainDoc rows img_root fs picErr = Except.error 400
        ↔ parse_excel_config rows = [])
    ∧ (∀ code, upload_and_process mainDoc rows img_root fs picErr = Except.error code →
        code = 400) := by
  unfold upload_and_process
  by_cases h : parse_excel_config rows = [] <;> simp [h]

theorem empty_parse_rejected_with_400_witness :
    upload_and_process [] [] "root" (fun _ => none) (fun _ => none) = Except.error 400
    ∧ (400 : Nat) = 400 :=
  ⟨(empty_parse_rejected_with_400 [] [] "root" (fun _ => none) (fun _ => none)).1.mpr rfl,
   (empty_parse_rejected_with_400 [] [] "root" (fun _ => none) (fun _ => none)).2 400
     ((empty_parse_rejected_with_400 [] [] "root" (fun _ => none) (fun _ => none)).1.mpr rfl)⟩
